import Mathlib

/-!
A shallow embedding of the `surfman-chains` crate (servo/surfman-chains):
thread-safe swap chains for the `surfman` surface manager.

The embedding follows `surfman-chains/lib.rs` (the edition with the
`SurfaceProvider` abstraction, whose concrete provider is
`SurfmanProvider`). The `Arc<Mutex<...>>` wrappers are flattened away:
every operation is a pure function from the explicit state it reads
(device, context, swap-chain data, registry) to the updated state
together with the Rust `Result`.

Modelling choices:
* A `Surface` is its id together with its size (what `surface_info`
  exposes to this crate).
* The surfman `Device` is a deterministic oracle: a fresh-id supply with
  an allocation counter, the list of destroyed surface ids, and a
  failure injection for `bind_surface_to_context` (the only backend
  call whose failure the crate handles specially). `create_surface`,
  `destroy_surface` and `unbind_surface_from_context` are total in the
  model (a healthy allocator).
* Rust panics (`Option::unwrap` on `None`) are modelled by the
  distinguished error `SwapError.panicked`: nothing in the crate catches
  errors, so a panic aborts the call exactly like a propagated error.
* Hash maps (`FnvHashMap`) are modelled as association lists with their
  keys unique; `HashSet` as a duplicate-free list.
-/

/-- A surface size (`euclid::default::Size2D<i32>`). -/
structure Size where
  width : Int
  height : Int
deriving DecidableEq, Repr

/-- An opaque surfman surface handle: its id and its size, which is what
`device.surface_info(&surface)` reports. -/
structure Surface where
  id : Nat
  size : Size
deriving DecidableEq, Repr

instance : Inhabited Surface := ⟨⟨0, ⟨0, 0⟩⟩⟩

/-- `surfman::Error`, restricted to the constructors this crate produces
(`Failed`, `IncompatibleContext`), an opaque family of backend errors,
and a marker for Rust panics. -/
inductive SwapError where
  | failed
  | incompatibleContext
  | backend (code : Nat)
  | panicked
deriving DecidableEq, Repr

/-- The surfman `Device` capability, as a deterministic oracle:
fresh-id supply, allocation counter, destroyed surface ids, and the
failure injection for `bind_surface_to_context` (`bindFails` says which
surface ids fail to bind; `bindError` is the backend error such a
failure reports, returned to the caller together with the surface). -/
structure Device where
  nextId : Nat
  allocCount : Nat
  destroyed : List Nat
  bindFails : Nat → Bool
  bindError : SwapError

/-- `device.create_surface(context, access, SurfaceType::Generic { size })`:
allocates a fresh surface of the requested size. Total in the model. -/
def createSurface (d : Device) (sz : Size) : Device × Surface :=
  ({ d with nextId := d.nextId + 1, allocCount := d.allocCount + 1 },
   { id := d.nextId, size := sz })

/-- `device.destroy_surface(context, &mut surface)`: records the id as
destroyed. Total in the model. -/
def destroySurface (d : Device) (s : Surface) : Device :=
  { d with destroyed := s.id :: d.destroyed }

/-- A producer context: its `ContextID` (`device.context_id(context)`)
and the surface currently bound to it, if any
(`device.context_surface_info(context)`). -/
structure Context where
  ctxId : Nat
  boundSurface : Option Surface
deriving DecidableEq, Repr

/-- `SurfmanProvider<Device>`: pending front buffer plus recycle pool
(the `surface_access` field has no observable effect in the model). -/
structure SurfmanProvider where
  pendingSurface : Option Surface
  recycledSurfaces : List Surface
deriving DecidableEq, Repr

/-- `SurfmanProvider::recycle_front_buffer`: if a pending surface
exists, move it into the recycle pool (`Vec::push`, at the end). -/
def recycle_front_buffer (p : SurfmanProvider) : SurfmanProvider :=
  match p.pendingSurface with
  | some s =>
      { p with pendingSurface := none,
               recycledSurfaces := p.recycledSurfaces ++ [s] }
  | none => p

/-- `SurfmanProvider::recycle_surface`: push into the recycle pool. -/
def SurfmanProvider.recycle_surface (p : SurfmanProvider) (s : Surface) :
    SurfmanProvider :=
  { p with recycledSurfaces := p.recycledSurfaces ++ [s] }

/-- Rust `Iterator::position`: index of the first element satisfying
the predicate. -/
def position (p : Surface → Bool) : List Surface → Option Nat
  | [] => none
  | x :: xs => if p x then some 0 else (position p xs).map Nat.succ

/-- Rust `Vec::swap_remove i`: move the last element into position `i`
and shorten by one (callers only use in-range indices). -/
def swapRemove (l : List Surface) (i : Nat) : List Surface :=
  match l.getLast? with
  | some last => (l.set i last).dropLast
  | none => l

/-- Outcome of `provide_surface`: the updated device and provider and
the surface handed out. (`provide_surface` only fails when allocation
fails, and allocation is total in the model.) -/
structure ProvideResult where
  device : Device
  provider : SurfmanProvider
  surface : Surface

/-- `SurfmanProvider::provide_surface`: scan the recycle pool for the
first surface of the requested size, removing it by `swap_remove`;
otherwise allocate a fresh surface of that size. -/
def provide_surface (d : Device) (p : SurfmanProvider) (sz : Size) :
    ProvideResult :=
  match position (fun s => decide (s.size = sz)) p.recycledSurfaces with
  | some i =>
      ⟨d, { p with recycledSurfaces := swapRemove p.recycledSurfaces i },
       p.recycledSurfaces.getD i default⟩
  | none =>
      let cr := createSurface d sz
      ⟨cr.1, p, cr.2⟩

/-- `SurfmanProvider::take_front_buffer`: pending if present, else pop
from the end of the recycle pool, else none. -/
def take_front_buffer (p : SurfmanProvider) :
    SurfmanProvider × Option Surface :=
  match p.pendingSurface with
  | some s => ({ p with pendingSurface := none }, some s)
  | none =>
      match p.recycledSurfaces.getLast? with
      | some s =>
          ({ p with recycledSurfaces := p.recycledSurfaces.dropLast },
           some s)
      | none => (p, none)

/-- `SurfmanProvider::set_front_buffer`: install the surface as pending,
then destroy every surface remaining in the recycle pool. -/
def set_front_buffer (d : Device) (p : SurfmanProvider) (s : Surface) :
    Device × SurfmanProvider :=
  (p.recycledSurfaces.foldl destroySurface d,
   { p with pendingSurface := some s, recycledSurfaces := [] })

/-- `SurfmanProvider::create_sized_surface`: always a fresh allocation,
bypassing the recycle pool. -/
def create_sized_surface (d : Device) (sz : Size) : Device × Surface :=
  createSurface d sz

/-- `SurfmanProvider::destroy_all_surfaces`: destroy the pending surface
(if any) and the entire recycle pool. -/
def destroy_all_surfaces (d : Device) (p : SurfmanProvider) :
    Device × SurfmanProvider :=
  ((p.pendingSurface.toList ++ p.recycledSurfaces).foldl destroySurface d,
   { p with pendingSurface := none, recycledSurfaces := [] })

/-- `SwapChainData<Device>`: the provider state, the back-buffer size,
the producer `ContextID`, and the unattached back buffer (`Some` iff
the swap chain is detached). -/
structure SwapChainData where
  surface_provider : SurfmanProvider
  size : Size
  context_id : Nat
  unattached_surface : Option Surface
deriving DecidableEq, Repr

/-- `SwapChain::is_attached`: true iff no unattached surface is stored. -/
def SwapChainData.is_attached (sc : SwapChainData) : Bool :=
  sc.unattached_surface.isNone

/-- The surfaces a swap chain currently holds (unattached slot, pending
slot, recycle pool) — the context's bound surface is owned by the
context, not the chain. -/
def surface_count (sc : SwapChainData) : Nat :=
  sc.unattached_surface.toList.length
    + sc.surface_provider.pendingSurface.toList.length
    + sc.surface_provider.recycledSurfaces.length

/-- The swap chain's back buffer as an observation: the unattached slot
when detached, the context's bound surface when attached. -/
def back_buffer (c : Context) (sc : SwapChainData) : Option Surface :=
  match sc.unattached_surface with
  | some s => some s
  | none => c.boundSurface

/-- Outcome of a producer operation on one swap chain: the updated
device, context and swap chain, and the Rust `Result`. -/
structure OpResult where
  device : Device
  ctx : Context
  chain : SwapChainData
  result : Except SwapError Unit

/-- Outcome of `take_attachment_from`, which touches two swap chains. -/
structure TakeResult where
  device : Device
  ctx : Context
  self : SwapChainData
  other : SwapChainData
  result : Except SwapError Unit

/-- `SwapChainData::swap_buffers`: validate the context, recycle the old
front buffer, obtain a new back buffer from the provider, swap it into
the unattached slot (detached) or the context (attached, with rollback:
a failed bind destroys the new back buffer and propagates the backend
error), then hand the displaced surface to `set_front_buffer`. -/
def swap_buffers (d : Device) (c : Context) (sc : SwapChainData) :
    OpResult :=
  if sc.context_id = c.ctxId then
    let p0 := recycle_front_buffer sc.surface_provider
    let pr := provide_surface d p0 sc.size
    match sc.unattached_surface with
    | some surface =>
        -- mem::replace: the new back buffer goes into the slot,
        -- the old unattached surface becomes the new front buffer
        let sf := set_front_buffer pr.device pr.provider surface
        ⟨sf.1, c,
         { sc with surface_provider := sf.2,
                   unattached_surface := some pr.surface }, .ok ()⟩
    | none =>
        match c.boundSurface with
        | none =>
            -- unbind_surface_from_context(context)?.unwrap() panics
            ⟨pr.device, c, { sc with surface_provider := pr.provider },
             .error .panicked⟩
        | some new_front =>
            if pr.device.bindFails pr.surface.id then
              -- bind failed: destroy the new back buffer, return the
              -- error (the unbound old surface is dropped by Rust)
              ⟨destroySurface pr.device pr.surface,
               { c with boundSurface := none },
               { sc with surface_provider := pr.provider },
               .error pr.device.bindError⟩
            else
              let sf := set_front_buffer pr.device pr.provider new_front
              ⟨sf.1, { c with boundSurface := some pr.surface },
               { sc with surface_provider := sf.2 }, .ok ()⟩
  else ⟨d, c, sc, .error .incompatibleContext⟩

/-- `SwapChainData::take_attachment_from`: validate the context against
both swap chains, then `self.unattached_surface.take()` and check that
`other` is attached; on success bind the taken surface (unbinding the
context's current surface, which becomes `other`'s unattached surface),
on a failed precondition return `Failed` — the taken surface, if any,
has already been removed from `self` and is dropped by Rust. -/
def take_attachment_from (d : Device) (c : Context)
    (self other : SwapChainData) : TakeResult :=
  if self.context_id = c.ctxId then
    if other.context_id = c.ctxId then
      -- self.unattached_surface.take() runs before the pattern match
      let taken := self.unattached_surface
      let self1 := { self with unattached_surface := none }
      match taken, other.unattached_surface with
      | some surface, none =>
          match c.boundSurface with
          | none =>
              -- unbind_surface_from_context(context)?.unwrap() panics
              ⟨d, c, self1, other, .error .panicked⟩
          | some old_surface =>
              if d.bindFails surface.id then
                ⟨destroySurface d surface, { c with boundSurface := none },
                 self1, other, .error d.bindError⟩
              else
                ⟨d, { c with boundSurface := some surface }, self1,
                 { other with unattached_surface := some old_surface },
                 .ok ()⟩
      | _, _ => ⟨d, c, self1, other, .error .failed⟩
    else ⟨d, c, self, other, .error .incompatibleContext⟩
  else ⟨d, c, self, other, .error .incompatibleContext⟩

/-- `SwapChainData::resize`: validate the context, reject any dimension
below 1 with `Failed`, force-allocate a new back buffer, swap it into
the unattached slot or the context (same bind rollback as
`swap_buffers`), destroy the displaced back buffer, update the size. -/
def resize (d : Device) (c : Context) (sc : SwapChainData) (sz : Size) :
    OpResult :=
  if sc.context_id = c.ctxId then
    if sz.width < 1 ∨ sz.height < 1 then ⟨d, c, sc, .error .failed⟩
    else
      let cr := create_sized_surface d sz
      match sc.unattached_surface with
      | some surface =>
          ⟨destroySurface cr.1 surface, c,
           { sc with unattached_surface := some cr.2, size := sz }, .ok ()⟩
      | none =>
          match c.boundSurface with
          | none =>
              -- unbind_surface_from_context(context)?.unwrap() panics
              ⟨cr.1, c, sc, .error .panicked⟩
          | some old =>
              if cr.1.bindFails cr.2.id then
                ⟨destroySurface cr.1 cr.2, { c with boundSurface := none },
                 sc, .error cr.1.bindError⟩
              else
                ⟨destroySurface cr.1 old,
                 { c with boundSurface := some cr.2 },
                 { sc with size := sz }, .ok ()⟩
  else ⟨d, c, sc, .error .incompatibleContext⟩

/-- `SwapChainData::clear_surface`: validate the context, temporarily
bind the back buffer if the chain is detached (destroying the surfaces
in flight if a bind fails), clear (a pure GL effect, invisible to this
state), then restore the original binding. GL state save/restore is
outside the model. -/
def clear_surface (d : Device) (c : Context) (sc : SwapChainData) :
    OpResult :=
  if sc.context_id = c.ctxId then
    let taken := sc.unattached_surface
    let sc1 := { sc with unattached_surface := none }
    match taken with
    | some surface =>
        let reattach := c.boundSurface
        if d.bindFails surface.id then
          let d1 := destroySurface d surface
          let d2 := match reattach with
                    | some r => destroySurface d1 r
                    | none => d1
          ⟨d2, { c with boundSurface := none }, sc1, .error d.bindError⟩
        else
          match reattach with
          | some r =>
              if d.bindFails r.id then
                ⟨destroySurface d r, { c with boundSurface := none },
                 sc1, .error d.bindError⟩
              else
                ⟨d, { c with boundSurface := some r },
                 { sc1 with unattached_surface := some surface }, .ok ()⟩
          | none =>
              -- nothing to reattach: the back buffer stays bound to the
              -- context and the unattached slot stays empty
              ⟨d, { c with boundSurface := some surface }, sc1, .ok ()⟩
    | none =>
        match c.boundSurface with
        | none =>
            -- context_surface_info(context).unwrap().unwrap() panics
            ⟨d, c, sc, .error .panicked⟩
        | some _ => ⟨d, c, sc, .ok ()⟩
  else ⟨d, c, sc, .error .incompatibleContext⟩

/-- `SwapChainData::destroy`: validate the context, destroy the
unattached surface if present, then `destroy_all_surfaces` on the
provider (pending plus recycle pool). -/
def SwapChainData.destroy (d : Device) (c : Context) (sc : SwapChainData) :
    OpResult :=
  if sc.context_id = c.ctxId then
    let d1 := match sc.unattached_surface with
              | some s => destroySurface d s
              | none => d
    let da := destroy_all_surfaces d1 sc.surface_provider
    ⟨da.1, c,
     { sc with unattached_surface := none, surface_provider := da.2 },
     .ok ()⟩
  else ⟨d, c, sc, .error .incompatibleContext⟩

/-- `SwapChainData::take_surface` (consumer, no validation). -/
def SwapChainData.take_surface (sc : SwapChainData) :
    SwapChainData × Option Surface :=
  let r := take_front_buffer sc.surface_provider
  ({ sc with surface_provider := r.1 }, r.2)

/-- `SwapChainData::recycle_surface` (consumer, no validation). -/
def SwapChainData.recycle_surface (sc : SwapChainData) (s : Surface) :
    SwapChainData :=
  { sc with surface_provider := sc.surface_provider.recycle_surface s }

/-- `SwapChain::create_attached`: the new swap chain inherits the
context's current surface size (`context_surface_info(context)
.unwrap().unwrap()` panics when the context has no bound surface) and
starts attached. -/
def create_attached (d : Device) (c : Context) (p : SurfmanProvider) :
    Device × Except SwapError SwapChainData :=
  match c.boundSurface with
  | none => (d, .error .panicked)
  | some s =>
      (d, .ok { surface_provider := p, size := s.size,
                context_id := c.ctxId, unattached_surface := none })

/-- `SwapChain::create_detached`: obtain an initial surface from the
provider and store it unattached. (`provide_surface` is total in the
model, so creation always succeeds.) -/
def create_detached (d : Device) (c : Context) (p : SurfmanProvider)
    (sz : Size) : Device × SwapChainData :=
  let pr := provide_surface d p sz
  (pr.device,
   { surface_provider := pr.provider, size := sz,
     context_id := c.ctxId, unattached_surface := some pr.surface })

/-- `SwapChains<SwapChainID, Device>` with `SwapChainID = Nat`: the
table (swap-chain id → swap chain) and the per-context index
(`ContextID` → set of swap-chain ids), both as association lists with
unique keys. -/
structure SwapChains where
  ids : List (Nat × List Nat)
  table : List (Nat × SwapChainData)

/-- Replace the value at a key of the per-context index, or append the
binding if the key is absent (`HashMap` entry update). -/
def upsert (m : List (Nat × List Nat)) (k : Nat) (v : List Nat) :
    List (Nat × List Nat) :=
  match m with
  | [] => [(k, v)]
  | kv :: rest =>
      if kv.1 = k then (k, v) :: rest else kv :: upsert rest k v

/-- `ids.entry(ctx).or_insert_with(Default::default).insert(id)`:
add the id to the context's set. -/
def addToIds (m : List (Nat × List Nat)) (ctx : Nat) (id : Nat) :
    List (Nat × List Nat) :=
  let s := (m.lookup ctx).getD []
  upsert m ctx (if id ∈ s then s else s ++ [id])

/-- `if let Some(ids) = ids.get_mut(&ctx) { ids.remove(&id) }`: remove
the id from the context's set, when that set exists. -/
def removeFromIds (m : List (Nat × List Nat)) (ctx : Nat) (id : Nat) :
    List (Nat × List Nat) :=
  match m.lookup ctx with
  | some s => upsert m ctx (s.filter (fun x => x != id))
  | none => m

/-- `HashMap::remove` on the table (keys are unique). -/
def removeKey : List (Nat × SwapChainData) → Nat →
    List (Nat × SwapChainData)
  | [], _ => []
  | kv :: rest, k =>
      if kv.1 = k then removeKey rest k else kv :: removeKey rest k

/-- Outcome of a registry operation. -/
structure RegResult where
  chains : SwapChains
  device : Device
  result : Except SwapError Unit

/-- `SwapChains::get`: shared-read lookup in the table. -/
def SwapChains.get (r : SwapChains) (id : Nat) : Option SwapChainData :=
  r.table.lookup id

/-- `SwapChains::create_attached_swap_chain`: fail with `Failed` if the
id is occupied (before creating anything); otherwise insert the new
attached swap chain and add the id to the context's index entry. -/
def SwapChains.create_attached_swap_chain (r : SwapChains) (id : Nat)
    (d : Device) (c : Context) (p : SurfmanProvider) : RegResult :=
  match r.table.lookup id with
  | some _ => ⟨r, d, .error .failed⟩
  | none =>
      match create_attached d c p with
      | (d1, .error e) => ⟨r, d1, .error e⟩
      | (d1, .ok sc) =>
          ⟨{ table := r.table ++ [(id, sc)],
             ids := addToIds r.ids c.ctxId id }, d1, .ok ()⟩

/-- `SwapChains::create_detached_swap_chain`: fail with `Failed` if the
id is occupied (before creating anything); otherwise insert the new
detached swap chain and add the id to the context's index entry. -/
def SwapChains.create_detached_swap_chain (r : SwapChains) (id : Nat)
    (sz : Size) (d : Device) (c : Context) (p : SurfmanProvider) :
    RegResult :=
  match r.table.lookup id with
  | some _ => ⟨r, d, .error .failed⟩
  | none =>
      let cd := create_detached d c p sz
      ⟨{ table := r.table ++ [(id, cd.2)],
         ids := addToIds r.ids c.ctxId id }, cd.1, .ok ()⟩

/-- `SwapChains::destroy`: remove the id from the table first; if a
swap chain was removed, destroy it — `?` propagates its error, skipping
the index cleanup; then remove the id from the caller's index entry. -/
def SwapChains.destroy (r : SwapChains) (id : Nat) (d : Device)
    (c : Context) : RegResult :=
  match r.table.lookup id with
  | some sc =>
      let r1 : SwapChains := { r with table := removeKey r.table id }
      let dres := SwapChainData.destroy d c sc
      match dres.result with
      | .error e => ⟨r1, dres.device, .error e⟩
      | .ok _ =>
          ⟨{ r1 with ids := removeFromIds r1.ids c.ctxId id },
           dres.device, .ok ()⟩
  | none =>
      ⟨{ r with ids := removeFromIds r.ids c.ctxId id }, d, .ok ()⟩

/-- A healthy device for concrete runs: fresh ids from 0, nothing
destroyed, binding never fails. -/
def d0 : Device := ⟨0, 0, [], fun _ => false, .backend 0⟩

/-- A producer context with id 1 and no bound surface. -/
def c0 : Context := ⟨1, none⟩

/-- `SurfmanProvider::new`: empty pending slot and recycle pool. -/
def p0 : SurfmanProvider := ⟨none, []⟩

/-- A surface bound to the witness context `cA`. -/
def sBound : Surface := ⟨4, ⟨2, 2⟩⟩

/-- A producer context with id 1 and `sBound` bound. -/
def cA : Context := ⟨1, some sBound⟩

/-- A detached swap chain of context 1 holding surface 3. -/
def chA : SwapChainData := ⟨p0, ⟨2, 2⟩, 1, some ⟨3, ⟨2, 2⟩⟩⟩

/-- An attached swap chain of context 1. -/
def chB : SwapChainData := ⟨p0, ⟨2, 2⟩, 1, none⟩

/-- A second detached swap chain of context 1, holding surface 9. -/
def chD : SwapChainData := ⟨p0, ⟨2, 2⟩, 1, some ⟨9, ⟨2, 2⟩⟩⟩

/-- A swap chain whose producer context 2 differs from `c0`/`cA`. -/
def scMismatch : SwapChainData := ⟨p0, ⟨4, 4⟩, 2, none⟩

/-- A device on which every bind fails with backend error 7. -/
def dFail : Device := ⟨0, 0, [], fun _ => true, .backend 7⟩

/-- A swap chain with every slot occupied (for the destroy witness). -/
def chFull : SwapChainData :=
  ⟨⟨some ⟨2, ⟨2, 2⟩⟩, [⟨3, ⟨2, 2⟩⟩]⟩, ⟨2, 2⟩, 1, some ⟨4, ⟨2, 2⟩⟩⟩

/-- A registry that already maps id 1 (owned by context 1). -/
def rW : SwapChains := ⟨[(1, [1])], [(1, chB)]⟩

/-- A registry mapping id 1 to a swap chain owned by context 2. -/
def rX : SwapChains := ⟨[(2, [1])], [(1, scMismatch)]⟩

theorem position_some_pred {p : Surface → Bool} :
    ∀ {l : List Surface} {i : Nat}, position p l = some i →
      p (l.getD i default) = true := by
  intro l
  induction l with
  | nil => intro i h; simp [position] at h
  | cons x xs ih =>
      intro i h
      by_cases hx : p x
      · simp [position, hx] at h
        subst h
        simpa using hx
      · simp [position, hx] at h
        obtain ⟨j, hj, hji⟩ := h
        subst hji
        simpa using ih hj

theorem position_append {p : Surface → Bool} {s : Surface}
    (post : List Surface) :
    ∀ pre : List Surface, (∀ t ∈ pre, p t = false) → p s = true →
      position p (pre ++ s :: post) = some pre.length := by
  intro pre
  induction pre with
  | nil => intro _ hs; simp [position, hs]
  | cons x xs ih =>
      intro hpre hs
      have hx : p x = false := hpre x (by simp)
      have := ih (fun t ht => hpre t (by simp [ht])) hs
      simp [position, hx, this]

theorem position_none {p : Surface → Bool} :
    ∀ {l : List Surface}, (∀ t ∈ l, p t = false) → position p l = none := by
  intro l
  induction l with
  | nil => intro _; rfl
  | cons x xs ih =>
      intro h
      simp [position, h x (by simp), ih (fun t ht => h t (by simp [ht]))]

theorem getD_append_length (pre post : List Surface) (s t : Surface) :
    (pre ++ s :: post).getD pre.length t = s := by
  induction pre with
  | nil => rfl
  | cons x xs ih => simpa using ih

theorem provide_surface_oracle (d : Device) (p : SurfmanProvider)
    (sz : Size) :
    (provide_surface d p sz).device.bindFails = d.bindFails ∧
    (provide_surface d p sz).device.bindError = d.bindError := by
  cases h : position (fun s => decide (s.size = sz)) p.recycledSurfaces <;>
    simp [provide_surface, h, createSurface]

theorem provide_surface_size (d : Device) (p : SurfmanProvider)
    (sz : Size) :
    (provide_surface d p sz).surface.size = sz := by
  cases h : position (fun s => decide (s.size = sz)) p.recycledSurfaces with
  | some i =>
      have hp := position_some_pred h
      simp only [decide_eq_true_eq] at hp
      simp only [provide_surface, h]
      exact hp
  | none => simp [provide_surface, h, createSurface]

theorem foldl_destroy_mem (l : List Surface) (d : Device) :
    (∀ s ∈ l, s.id ∈ (l.foldl destroySurface d).destroyed) ∧
    (∀ n ∈ d.destroyed, n ∈ (l.foldl destroySurface d).destroyed) := by
  induction l generalizing d with
  | nil => exact ⟨by simp, fun n hn => hn⟩
  | cons x xs ih =>
      refine ⟨?_, ?_⟩
      · intro s hs
        rcases List.mem_cons.mp hs with h | h
        · exact (ih (destroySurface d x)).2 s.id (by simp [destroySurface, h])
        · exact (ih (destroySurface d x)).1 s h
      · intro n hn
        exact (ih (destroySurface d x)).2 n (by simp [destroySurface, hn])

theorem lookup_removeKey (m : List (Nat × SwapChainData)) (k : Nat) :
    (removeKey m k).lookup k = none := by
  induction m with
  | nil => rfl
  | cons kv rest ih =>
      obtain ⟨a, b⟩ := kv
      by_cases h : a = k
      · simpa [removeKey, h] using ih
      · have hb : (k == a) = false := by
          simp [beq_eq_false_iff_ne, Ne.symm h]
        simp [removeKey, h, List.lookup, hb, ih]

/-- C1: for swap chains A and B sharing the producer context (and the
context holding a bound surface, with a healthy bind),
`take_attachment_from A B` succeeds exactly when A is detached and B is
attached; on success A is attached, B is detached, and the total number
of surfaces held across both swap chains is unchanged. -/
theorem C1_take_attachment_iff (d : Device) (c : Context)
    (A B : SwapChainData) (s0 : Surface)
    (hA : A.context_id = c.ctxId) (hB : B.context_id = c.ctxId)
    (hbound : c.boundSurface = some s0)
    (hbind : ∀ n, d.bindFails n = false) :
    ((take_attachment_from d c A B).result = .ok () ↔
      A.is_attached = false ∧ B.is_attached = true) ∧
    ((take_attachment_from d c A B).result = .ok () →
      (take_attachment_from d c A B).self.is_attached = true ∧
      (take_attachment_from d c A B).other.is_attached = false ∧
      surface_count (take_attachment_from d c A B).self +
          surface_count (take_attachment_from d c A B).other =
        surface_count A + surface_count B) := by
  cases hAu : A.unattached_surface with
  | none =>
      cases hBu : B.unattached_surface <;>
        simp [take_attachment_from, hA, hB, hAu, hBu,
              SwapChainData.is_attached]
  | some sA =>
      cases hBu : B.unattached_surface with
      | none =>
          constructor
          · simp [take_attachment_from, hA, hB, hAu, hBu, hbound, hbind,
                  SwapChainData.is_attached]
          · intro _
            refine ⟨?_, ?_, ?_⟩ <;>
              simp [take_attachment_from, hA, hB, hAu, hBu, hbound, hbind,
                    SwapChainData.is_attached, surface_count]
            omega
      | some sB =>
          simp [take_attachment_from, hA, hB, hAu, hBu,
                SwapChainData.is_attached]

/-- Witness for C1 at a concrete detached/attached pair. -/
theorem C1_witness :
    (chA.context_id = cA.ctxId ∧ chB.context_id = cA.ctxId ∧
     cA.boundSurface = some sBound ∧ ∀ n, d0.bindFails n = false) ∧
    ((take_attachment_from d0 cA chA chB).result = .ok () ↔
      chA.is_attached = false ∧ chB.is_attached = true) :=
  ⟨⟨rfl, rfl, rfl, fun _ => rfl⟩,
   (C1_take_attachment_iff d0 cA chA chB sBound rfl rfl rfl
     (fun _ => rfl)).1⟩

/-- C2 (evaluation of the code at the failing input): with both swap
chains detached and the producer context matching, `take_attachment_from`
returns `Failed` but has removed `self`'s unattached surface (id 3),
which is neither restored to any slot nor destroyed — contradicting the
claim that a failed precondition mutates neither swap chain. -/
theorem C2_failed_precondition_drops_surface :
    (take_attachment_from d0 cA chA chD).result = .error .failed ∧
    chA.unattached_surface = some ⟨3, ⟨2, 2⟩⟩ ∧
    (take_attachment_from d0 cA chA chD).self.unattached_surface = none ∧
    (take_attachment_from d0 cA chA chD).self.surface_provider =
      chA.surface_provider ∧
    (take_attachment_from d0 cA chA chD).ctx = cA ∧
    3 ∉ (take_attachment_from d0 cA chA chD).device.destroyed ∧
    (take_attachment_from d0 cA chA chD).other = chD :=
  ⟨rfl, rfl, rfl, rfl, rfl, by decide, rfl⟩

/-- C3: every producer operation called with a context whose identity
differs from the stored `context_id` returns `IncompatibleContext` and
leaves the device, context and swap chain exactly as they were. -/
theorem C3_context_mismatch_rejected (d : Device) (c : Context)
    (sc other : SwapChainData) (sz : Size)
    (h : sc.context_id ≠ c.ctxId) :
    swap_buffers d c sc = ⟨d, c, sc, .error .incompatibleContext⟩ ∧
    take_attachment_from d c sc other =
      ⟨d, c, sc, other, .error .incompatibleContext⟩ ∧
    resize d c sc sz = ⟨d, c, sc, .error .incompatibleContext⟩ ∧
    clear_surface d c sc = ⟨d, c, sc, .error .incompatibleContext⟩ ∧
    SwapChainData.destroy d c sc =
      ⟨d, c, sc, .error .incompatibleContext⟩ := by
  refine ⟨?_, ?_, ?_, ?_, ?_⟩ <;>
    simp [swap_buffers, take_attachment_from, resize, clear_surface,
          SwapChainData.destroy, h]

/-- Witness for C3 at a concrete mismatched chain (context 2 vs 1). -/
theorem C3_witness :
    (scMismatch.context_id ≠ c0.ctxId) ∧
    swap_buffers d0 c0 scMismatch =
      ⟨d0, c0, scMismatch, .error .incompatibleContext⟩ ∧
    SwapChainData.destroy d0 c0 scMismatch =
      ⟨d0, c0, scMismatch, .error .incompatibleContext⟩ :=
  ⟨by decide,
   (C3_context_mismatch_rejected d0 c0 scMismatch scMismatch ⟨4, 4⟩
     (by decide)).1,
   (C3_context_mismatch_rejected d0 c0 scMismatch scMismatch ⟨4, 4⟩
     (by decide)).2.2.2.2⟩

/-- C4: `resize` with a width or height below 1, called with the
producer context, returns `Failed` and changes nothing; a subsequent
`swap_buffers` (healthy backend, well-formed attachment) still succeeds
and its new back buffer has the pre-resize size. -/
theorem C4_resize_reject_small (d : Device) (c : Context)
    (sc : SwapChainData) (sz : Size)
    (hctx : sc.context_id = c.ctxId)
    (hsz : sz.width < 1 ∨ sz.height < 1)
    (hbind : ∀ n, d.bindFails n = false)
    (hwf : sc.unattached_surface.isSome ∨ c.boundSurface.isSome) :
    resize d c sc sz = ⟨d, c, sc, .error .failed⟩ ∧
    (swap_buffers d c sc).result = .ok () ∧
    ∃ nb, back_buffer (swap_buffers d c sc).ctx (swap_buffers d c sc).chain
            = some nb ∧ nb.size = sc.size := by
  refine ⟨by simp [resize, hctx, hsz], ?_, ?_⟩ <;>
  · cases hAu : sc.unattached_surface with
    | some s =>
        simp [swap_buffers, hctx, hAu, back_buffer, provide_surface_size]
    | none =>
        rcases hwf with hwf | hwf
        · simp [hAu] at hwf
        · obtain ⟨s0, hs0⟩ := Option.isSome_iff_exists.mp hwf
          have hor := provide_surface_oracle d
            (recycle_front_buffer sc.surface_provider) sc.size
          simp [swap_buffers, hctx, hAu, hs0, hor.1, hbind, back_buffer,
                provide_surface_size]

/-- Witness for C4 on an attached chain with requested size (0, 5). -/
theorem C4_witness :
    (chB.context_id = cA.ctxId ∧
     ((⟨0, 5⟩ : Size).width < 1 ∨ (⟨0, 5⟩ : Size).height < 1)) ∧
    resize d0 cA chB ⟨0, 5⟩ = ⟨d0, cA, chB, .error .failed⟩ ∧
    (swap_buffers d0 cA chB).result = .ok () :=
  ⟨⟨rfl, Or.inl (by decide)⟩,
   (C4_resize_reject_small d0 cA chB ⟨0, 5⟩ rfl (Or.inl (by decide))
      (fun _ => rfl) (Or.inr rfl)).1,
   (C4_resize_reject_small d0 cA chB ⟨0, 5⟩ rfl (Or.inl (by decide))
      (fun _ => rfl) (Or.inr rfl)).2.1⟩

/-- C5: `provide_surface` returns the first pooled surface whose size
matches, removing it by swap-with-last and allocating nothing; with no
match it allocates exactly one fresh surface. In the concrete scenario
(detached chain at (100,100), swap, take, recycle, swap) the second
swap reuses the recycled surface with no new allocation. -/
theorem C5_provide_surface_policy (d : Device) (pend : Option Surface)
    (pool : List Surface) (sz : Size) :
    (∀ pre s post, pool = pre ++ s :: post →
        (∀ t ∈ pre, t.size ≠ sz) → s.size = sz →
        provide_surface d ⟨pend, pool⟩ sz =
          ⟨d, ⟨pend, swapRemove pool pre.length⟩, s⟩) ∧
    ((∀ t ∈ pool, t.size ≠ sz) →
        provide_surface d ⟨pend, pool⟩ sz =
          ⟨{ d with nextId := d.nextId + 1,
                    allocCount := d.allocCount + 1 },
           ⟨pend, pool⟩, ⟨d.nextId, sz⟩⟩) ∧
    (let cd := create_detached d0 c0 p0 ⟨100, 100⟩
     let sw1 := swap_buffers cd.1 c0 cd.2
     let ts := SwapChainData.take_surface sw1.chain
     let ch2 := SwapChainData.recycle_surface ts.1 ⟨0, ⟨100, 100⟩⟩
     let sw2 := swap_buffers sw1.device c0 ch2
     sw1.result = .ok () ∧
     ts.2 = some ⟨0, ⟨100, 100⟩⟩ ∧
     sw2.result = .ok () ∧
     sw2.device.allocCount = sw1.device.allocCount ∧
     sw1.device.allocCount = 2 ∧
     sw2.chain.unattached_surface = some ⟨0, ⟨100, 100⟩⟩) := by
  refine ⟨?_, ?_, ?_⟩
  · intro pre s post hpool hpre hs
    subst hpool
    have hpos : position (fun t => decide (t.size = sz))
        (pre ++ s :: post) = some pre.length :=
      position_append post pre (fun t ht => by simp [hpre t ht])
        (by simp [hs])
    simp [provide_surface, hpos]
    rw [← List.getD_eq_getElem (pre ++ s :: post) default (by simp)]
    exact getD_append_length pre post s default
  · intro hall
    have hpos : position (fun t => decide (t.size = sz)) pool = none :=
      position_none (fun t ht => by simp [hall t ht])
    simp [provide_surface, hpos, createSurface]
  · exact ⟨rfl, rfl, rfl, rfl, rfl, rfl⟩

/-- Witness for C5: a singleton pool whose surface matches size (5, 5). -/
theorem C5_witness :
    ((⟨7, ⟨5, 5⟩⟩ : Surface).size = ⟨5, 5⟩) ∧
    provide_surface d0 ⟨none, [⟨7, ⟨5, 5⟩⟩]⟩ ⟨5, 5⟩ =
      ⟨d0, ⟨none, swapRemove [⟨7, ⟨5, 5⟩⟩] 0⟩, ⟨7, ⟨5, 5⟩⟩⟩ :=
  ⟨rfl,
   (C5_provide_surface_policy d0 none [⟨7, ⟨5, 5⟩⟩] ⟨5, 5⟩).1 []
     ⟨7, ⟨5, 5⟩⟩ [] rfl (by simp) rfl⟩

/-- C6: `set_front_buffer` installs the surface as pending and destroys
every surface remaining in the recycle pool; hence after a successful
`swap_buffers` the recycle pool is empty and a pending surface exists. -/
theorem C6_set_front_buffer_evicts (d : Device) (p : SurfmanProvider)
    (s : Surface) (d2 : Device) (c : Context) (sc : SwapChainData) :
    (set_front_buffer d p s).2.pendingSurface = some s ∧
    (set_front_buffer d p s).2.recycledSurfaces = [] ∧
    (∀ t ∈ p.recycledSurfaces,
        t.id ∈ (set_front_buffer d p s).1.destroyed) ∧
    (sc.context_id = c.ctxId → (∀ n, d2.bindFails n = false) →
      (sc.unattached_surface.isSome ∨ c.boundSurface.isSome) →
      (swap_buffers d2 c sc).result = .ok () ∧
      (swap_buffers d2 c sc).chain.surface_provider.recycledSurfaces
          = [] ∧
      (swap_buffers d2 c sc).chain.surface_provider.pendingSurface.isSome) := by
  refine ⟨rfl, rfl, ?_, ?_⟩
  · intro t ht
    exact (foldl_destroy_mem p.recycledSurfaces d).1 t ht
  · intro hctx hbind hwf
    cases hAu : sc.unattached_surface with
    | some su => simp [swap_buffers, hctx, hAu, set_front_buffer]
    | none =>
        rcases hwf with hwf | hwf
        · simp [hAu] at hwf
        · obtain ⟨s0, hs0⟩ := Option.isSome_iff_exists.mp hwf
          have hor := provide_surface_oracle d2
            (recycle_front_buffer sc.surface_provider) sc.size
          simp [swap_buffers, hctx, hAu, hs0, hor.1, hbind,
                set_front_buffer]

/-- Witness for C6 on a pool holding surface 8 and the chain `chB`. -/
theorem C6_witness :
    (set_front_buffer d0 ⟨none, [⟨8, ⟨2, 2⟩⟩]⟩ sBound).2.pendingSurface
        = some sBound ∧
    (∀ t ∈ [(⟨8, ⟨2, 2⟩⟩ : Surface)],
        t.id ∈
          (set_front_buffer d0 ⟨none, [⟨8, ⟨2, 2⟩⟩]⟩ sBound).1.destroyed) ∧
    chB.context_id = cA.ctxId ∧
    (swap_buffers d0 cA chB).result = .ok () :=
  ⟨(C6_set_front_buffer_evicts d0 ⟨none, [⟨8, ⟨2, 2⟩⟩]⟩ sBound d0 cA
      chB).1,
   (C6_set_front_buffer_evicts d0 ⟨none, [⟨8, ⟨2, 2⟩⟩]⟩ sBound d0 cA
      chB).2.2.1,
   rfl,
   ((C6_set_front_buffer_evicts d0 ⟨none, [⟨8, ⟨2, 2⟩⟩]⟩ sBound d0 cA
      chB).2.2.2 rfl (fun _ => rfl) (Or.inr rfl)).1⟩

/-- C7: on an attached swap chain, when binding the newly obtained back
buffer fails, `swap_buffers` destroys that surface and returns the
backend bind error unchanged. -/
theorem C7_bind_failure_rollback (d : Device) (c : Context)
    (sc : SwapChainData) (s0 : Surface)
    (hctx : sc.context_id = c.ctxId)
    (hatt : sc.unattached_surface = none)
    (hbound : c.boundSurface = some s0)
    (hfail : d.bindFails
      (provide_surface d (recycle_front_buffer sc.surface_provider)
         sc.size).surface.id = true) :
    (swap_buffers d c sc).result = .error d.bindError ∧
    (provide_surface d (recycle_front_buffer sc.surface_provider)
        sc.size).surface.id ∈ (swap_buffers d c sc).device.destroyed := by
  have hor := provide_surface_oracle d
    (recycle_front_buffer sc.surface_provider) sc.size
  simp [swap_buffers, hctx, hatt, hbound, hor.1, hor.2, hfail,
        destroySurface]

/-- Witness for C7 on `dFail`, where every bind fails with backend 7. -/
theorem C7_witness :
    (chB.context_id = cA.ctxId ∧ chB.unattached_surface = none ∧
     cA.boundSurface = some sBound ∧
     dFail.bindFails
       (provide_surface dFail (recycle_front_buffer chB.surface_provider)
          chB.size).surface.id = true) ∧
    (swap_buffers dFail cA chB).result = .error dFail.bindError :=
  ⟨⟨rfl, rfl, rfl, rfl⟩,
   (C7_bind_failure_rollback dFail cA chB sBound rfl rfl rfl rfl).1⟩

/-- C8: creating a swap chain under an id already present in the table
fails with `Failed`, leaving the whole registry (table entry and
context index) and the device untouched. -/
theorem C8_duplicate_id_creation_fails (r : SwapChains) (id : Nat)
    (d : Device) (c : Context) (p : SurfmanProvider) (sz : Size)
    (sc0 : SwapChainData) (hdup : r.table.lookup id = some sc0) :
    SwapChains.create_attached_swap_chain r id d c p =
      ⟨r, d, .error .failed⟩ ∧
    SwapChains.create_detached_swap_chain r id sz d c p =
      ⟨r, d, .error .failed⟩ ∧
    SwapChains.get
        (SwapChains.create_attached_swap_chain r id d c p).chains id
      = some sc0 ∧
    SwapChains.get
        (SwapChains.create_detached_swap_chain r id sz d c p).chains id
      = some sc0 := by
  refine ⟨?_, ?_, ?_, ?_⟩ <;>
    simp [SwapChains.create_attached_swap_chain,
          SwapChains.create_detached_swap_chain, SwapChains.get, hdup]

/-- Witness for C8 on a registry already holding id 1. -/
theorem C8_witness :
    (rW.table.lookup 1 = some chB) ∧
    SwapChains.create_attached_swap_chain rW 1 d0 cA p0 =
      ⟨rW, d0, .error .failed⟩ :=
  ⟨rfl,
   (C8_duplicate_id_creation_fails rW 1 d0 cA p0 ⟨3, 3⟩ chB rfl).1⟩

/-- C9: after a successful `destroy` (producer context) every slot of
the swap chain is empty, and a second `destroy` with the same context
succeeds while destroying nothing (device and chain unchanged). -/
theorem C9_destroy_idempotent (d : Device) (c : Context)
    (sc : SwapChainData) (hctx : sc.context_id = c.ctxId) :
    (SwapChainData.destroy d c sc).result = .ok () ∧
    (SwapChainData.destroy d c sc).chain.unattached_surface = none ∧
    (SwapChainData.destroy d c sc).chain.surface_provider.pendingSurface
        = none ∧
    (SwapChainData.destroy d c sc).chain.surface_provider.recycledSurfaces
        = [] ∧
    (SwapChainData.destroy (SwapChainData.destroy d c sc).device c
        (SwapChainData.destroy d c sc).chain).result = .ok () ∧
    (SwapChainData.destroy (SwapChainData.destroy d c sc).device c
        (SwapChainData.destroy d c sc).chain).device =
      (SwapChainData.destroy d c sc).device ∧
    (SwapChainData.destroy (SwapChainData.destroy d c sc).device c
        (SwapChainData.destroy d c sc).chain).chain =
      (SwapChainData.destroy d c sc).chain := by
  obtain ⟨⟨pend, rec⟩, szc, cid, un⟩ := sc
  simp only [SwapChainData.context_id] at hctx
  simp [SwapChainData.destroy, hctx, destroy_all_surfaces]

/-- Witness for C9 on a swap chain with every slot occupied. -/
theorem C9_witness :
    (chFull.context_id = c0.ctxId) ∧
    (SwapChainData.destroy d0 c0 chFull).result = .ok () ∧
    (SwapChainData.destroy (SwapChainData.destroy d0 c0 chFull).device c0
        (SwapChainData.destroy d0 c0 chFull).chain).device =
      (SwapChainData.destroy d0 c0 chFull).device :=
  ⟨rfl, (C9_destroy_idempotent d0 c0 chFull rfl).1,
   (C9_destroy_idempotent d0 c0 chFull rfl).2.2.2.2.2.1⟩

/-- C10: calling the registry's `destroy(id)` with a context other than
the swap chain's producer returns `IncompatibleContext`, yet the entry
has already been removed from the table (`get` now returns none), while
no surface is destroyed (device unchanged) and the context index — in
particular the producer context's entry containing `id` — is untouched. -/
theorem C10_registry_destroy_wrong_context (r : SwapChains) (id : Nat)
    (d : Device) (c : Context) (sc : SwapChainData)
    (hlook : r.table.lookup id = some sc)
    (hmis : sc.context_id ≠ c.ctxId) :
    (SwapChains.destroy r id d c).result = .error .incompatibleContext ∧
    SwapChains.get (SwapChains.destroy r id d c).chains id = none ∧
    (SwapChains.destroy r id d c).device = d ∧
    (SwapChains.destroy r id d c).chains.ids = r.ids := by
  simp [SwapChains.destroy, SwapChains.get, hlook, SwapChainData.destroy,
        hmis, lookup_removeKey]

/-- Witness for C10: registry `rX` maps id 1 to a chain of context 2;
`destroy` is called with context 1. -/
theorem C10_witness :
    (rX.table.lookup 1 = some scMismatch ∧
     scMismatch.context_id ≠ c0.ctxId) ∧
    (SwapChains.destroy rX 1 d0 c0).result = .error .incompatibleContext ∧
    SwapChains.get (SwapChains.destroy rX 1 d0 c0).chains 1 = none ∧
    (SwapChains.destroy rX 1 d0 c0).chains.ids = rX.ids :=
  ⟨⟨rfl, by decide⟩,
   (C10_registry_destroy_wrong_context rX 1 d0 c0 scMismatch rfl
      (by decide)).1,
   (C10_registry_destroy_wrong_context rX 1 d0 c0 scMismatch rfl
      (by decide)).2.1,
   (C10_registry_destroy_wrong_context rX 1 d0 c0 scMismatch rfl
      (by decide)).2.2.2⟩
